import Mathlib

/-!
Shallow embedding of `src/vs/workbench/contrib/terminal/browser/terminalTabsList.ts`,
the terminal tabs list widget: row rendering (width thresholds, split-group
prefix glyphs, status tooltips), the accessibility label provider, the
mouse-click handler, and the drag-and-drop handler (external drops and the
500ms auto-focus timer).

Machine integers do not occur: widths, times and ids are natural numbers in
the source's value range.  Calls into the external terminal services are
modelled as an emitted list of effects; external library functions (URI and
JSON parsing, path preparation) are parameters of the model.
-/

namespace TerminalTabs

/-! ## TerminalTabsListSizes (const enum, lines 38-46) -/

namespace TerminalTabsListSizes

def TabHeight : Nat := 22
def NarrowViewWidth : Nat := 46
def WideViewMinimumWidth : Nat := 80
def DefaultWidth : Nat := 120
def MidpointViewWidth : Nat := (NarrowViewWidth + WideViewMinimumWidth) / 2
def ActionbarMinimumWidth : Nat := 105
def MaximumWidth : Nat := 500

end TerminalTabsListSizes

/-! ## Data model

The terminal instance as observed by this component.  `icon` models
`inst.icon` (an object carrying an `id` and an optional `color`);
`none` models `undefined`.  JavaScript template literals print `undefined`
for an absent value, and `x || y` falls back on the empty string; both are
modelled explicitly below. -/

structure TerminalIcon where
  id : String
  colorId : Option String
  deriving DecidableEq, Repr

structure TerminalStatus where
  id : String
  icon : Option TerminalIcon
  tooltip : Option String
  severity : Nat
  hoverActions : List String
  deriving DecidableEq, Repr

structure StatusList where
  statuses : List TerminalStatus
  primary : Option TerminalStatus
  deriving DecidableEq, Repr

structure ShellLaunchConfig where
  executable : Option String
  description : Option String
  deriving DecidableEq, Repr

structure TerminalInstance where
  instanceId : Nat
  title : String
  icon : Option TerminalIcon
  color : Option String
  statusList : StatusList
  shellLaunchConfig : ShellLaunchConfig
  shellType : Option String
  isRemote : Bool
  deriving DecidableEq, Repr

/-- A split group: the ordered member list `group.terminalInstances`,
as instance ids (instances are compared by identity in the source; the
list's identity provider keys rows by `instanceId`). -/
structure Group where
  terminalInstances : List Nat
  deriving DecidableEq, Repr

/-- Severity.Ignore from `vs/base/common/severity` (Ignore = 0). -/
def severityIgnore : Nat := 0

/-- JavaScript template-literal rendering of a possibly-undefined string:
`undefined` prints as the text "undefined". -/
def jsTemplate : Option String → String
  | some s => s
  | none => "undefined"

/-- JavaScript `a || b` on strings where `a` may be undefined: the right
side is taken when the left is `undefined` or the empty string. -/
def jsOrElse (a : Option String) (b : String) : String :=
  match a with
  | some s => if s = "" then b else s
  | none => b

/-- JavaScript `a || b` where both sides may be undefined. -/
def jsOrOpt (a b : Option String) : Option String :=
  match a with
  | some s => if s = "" then b else some s
  | none => b

/-! ## TerminalTabsRenderer (lines 166-354) -/

/-- `shouldHideText` (lines 218-220): the container's clientWidth is below
the midpoint width; `none` models a missing container (the falsy branch). -/
def shouldHideText (containerWidth : Option Nat) : Bool :=
  match containerWidth with
  | some clientWidth => clientWidth < TerminalTabsListSizes.MidpointViewWidth
  | none => false

/-- `shouldHideActionBar` (lines 222-224). -/
def shouldHideActionBar (containerWidth : Option Nat) : Bool :=
  match containerWidth with
  | some clientWidth => clientWidth ≤ TerminalTabsListSizes.ActionbarMinimumWidth
  | none => false

/-- The split-group position marker (lines 235-245): for a group with more
than one member, `┌ ` for index 0, `└ ` for the last index, `├ `
otherwise; empty for a singleton group.  `List.indexOf` returns the list
length when the id is absent, which like the source's `-1` lands in the
middle branch. -/
def renderPrefixGlyph (group : Group) (instanceId : Nat) : String :=
  if group.terminalInstances.length > 1 then
    let terminalIndex := group.terminalInstances.indexOf instanceId
    if terminalIndex = 0 then
      "┌ "
    else if terminalIndex = group.terminalInstances.length - 1 then
      "└ "
    else
      "├ "
  else
    ""

/-- One status's contribution to the hover title (line 251). -/
def statusLine (status : TerminalStatus) : String :=
  "\n\n---\n\n"
    ++ (match status.icon with
        | some ic => "$(" ++ ic.id ++ ") "
        | none => "")
    ++ jsOrElse status.tooltip status.id

/-- The for-loop over `inst.statusList.statuses` (lines 249-255):
extends the hover title and collects hover actions. -/
def accumulateStatuses (title : String) (statuses : List TerminalStatus) :
    String × List String :=
  statuses.foldl
    (fun acc status => (acc.1 ++ statusLine status, acc.2 ++ status.hoverActions))
    (title, [])

/-- The icon id shown in the narrow (no-text) layout (lines 259-266):
the primary status's icon when its severity is above Ignore, the
instance's icon otherwise. -/
def narrowLabelIconId (inst : TerminalInstance) : Option String :=
  match inst.statusList.primary with
  | some primaryStatus =>
    if primaryStatus.severity > severityIgnore then
      jsOrOpt (primaryStatus.icon.map TerminalIcon.id) (inst.icon.map TerminalIcon.id)
    else
      inst.icon.map TerminalIcon.id
  | none => inst.icon.map TerminalIcon.id

/-- Everything `renderElement` computes for a row. -/
structure RenderResult where
  hasText : Bool
  prefixGlyph : String
  hoverTitle : String
  hoverActions : List String
  hasActionbar : Bool
  actionBarFilled : Bool
  labelName : String
  description : Option String
  codiconColor : String
  extraClasses : List String
  deriving DecidableEq, Repr

/-- `renderElement` (lines 226-313).  The group lookup
`getGroupForInstance` is the service-supplied environment, keyed here by
instance id.  A missing group throws (line 229), modelled as
`Except.error`; every other absent datum is handled by the optional paths
below. -/
def renderElement (getGroupForInstance : Nat → Option Group)
    (containerWidth : Option Nat) (inst : TerminalInstance) :
    Except String RenderResult :=
  match getGroupForInstance inst.instanceId with
  | none =>
    Except.error
      ("Could not find group for instance \"" ++ toString inst.instanceId ++ "\"")
  | some group =>
    let hasText := !shouldHideText containerWidth
    let prefixGlyph := renderPrefixGlyph group inst.instanceId
    let hover := accumulateStatuses inst.title inst.statusList.statuses
    let hasActionbar := !shouldHideActionBar containerWidth
    let label :=
      if !hasText then
        prefixGlyph ++ "$(" ++ jsTemplate (narrowLabelIconId inst) ++ ")"
      else
        let base := prefixGlyph ++ "$(" ++ jsTemplate (inst.icon.map TerminalIcon.id) ++ ")"
        -- Only add the title if the icon is set (lines 270-274)
        if inst.icon.isSome then base ++ " " ++ inst.title else base
    Except.ok
      { hasText := hasText
        prefixGlyph := prefixGlyph
        hoverTitle := hover.1
        hoverActions := hover.2
        hasActionbar := hasActionbar
        actionBarFilled := hasText
        labelName := label
        description := if hasText then inst.shellLaunchConfig.description else none
        codiconColor := jsOrElse (inst.icon.bind TerminalIcon.colorId) ""
        extraClasses :=
          match inst.color with
          | some c => ["terminal-icon-" ++ c]
          | none => [] }

/-! ## TerminalTabsAccessibilityProvider (lines 367-399) -/

/-- The localized string `splitTerminalAriaLabel`:
"Terminal {0} {1}, split {2} of {3}". -/
def splitTerminalAriaLabel (instanceId : Nat) (title : String) (pos total : Nat) : String :=
  "Terminal " ++ toString instanceId ++ " " ++ title
    ++ ", split " ++ toString pos ++ " of " ++ toString total

/-- The localized string `terminalAriaLabel`: "Terminal {0} {1}". -/
def terminalAriaLabel (instanceId : Nat) (title : String) : String :=
  "Terminal " ++ toString instanceId ++ " " ++ title

/-- `getAriaLabel` (lines 374-398): the split form when the instance's
group resolves and has more than one member, the plain form otherwise. -/
def getAriaLabel (getGroupForInstance : Nat → Option Group)
    (inst : TerminalInstance) : String :=
  match getGroupForInstance inst.instanceId with
  | some tab =>
    if tab.terminalInstances.length > 1 then
      splitTerminalAriaLabel inst.instanceId inst.title
        (tab.terminalInstances.indexOf inst.instanceId + 1)
        tab.terminalInstances.length
    else
      terminalAriaLabel inst.instanceId inst.title
  | none => terminalAriaLabel inst.instanceId inst.title

/-! ## TerminalTabList.onMouseClick handler (lines 110-119) -/

inductive ClickEffect where
  | splitInstance (instanceId : Nat)
  | focus (instanceId : Nat) (force : Bool)
  deriving DecidableEq, Repr

/-- The left-click handler (lines 110-119): Alt+click on a row splits the
instance; otherwise, in `singleClick` focus mode, the row is focused
unless more than one row is selected.  `element = none` models a click on
empty space (`e.element` undefined). -/
def onMouseClick (focusMode : String) (altKey : Bool) (element : Option Nat)
    (selectionLength : Nat) : List ClickEffect :=
  if altKey ∧ element.isSome then
    match element with
    | some e => [ClickEffect.splitInstance e]
    | none => []
  else if focusMode = "singleClick" then
    if selectionLength ≤ 1 then
      match element with
      | some e => [ClickEffect.focus e true]
      | none => []
    else []
  else []

/-! ## TerminalTabsDragAndDrop (lines 401-472)

Calls into the terminal services are recorded as a trace of effects.
`preparePath` records the arguments of `preparePathForTerminalAsync`
(line 469); its awaited result is the external parameter
`preparePathForTerminal`. -/

inductive Effect where
  | setActiveInstance (instanceId : Nat)
  | preparePath (path : String) (executable : Option String) (title : String)
      (shellType : Option String) (isRemote : Bool)
  | sendText (instanceId : Nat) (text : String) (addNewLine : Bool)
  | focusInstance (instanceId : Nat)
  deriving DecidableEq, Repr

/-- The drag payload's `dataTransfer`: `resources` is
`getData(DataTransfers.RESOURCES)` (the empty string when absent, as in
the DOM API), `files` the file list, each file's `path` the
Electron-only property (empty string models the absent/falsy case). -/
structure FileItem where
  path : String
  deriving DecidableEq, Repr

structure DataTransferModel where
  resources : String
  files : List FileItem
  deriving DecidableEq, Repr

/-- The external library functions used by the drop path:
`URI.parse(JSON.parse(resources)[0]).fsPath`, `URI.file(p).fsPath`, and
the awaited result of `preparePathForTerminalAsync`. -/
structure ExternalServices where
  parseResourcesFsPath : String → String
  fileFsPath : String → String
  preparePathForTerminal : String → String

/-- Path extraction of `_handleExternalDrop` (lines 454-461): a non-empty
resource list wins; otherwise the first dragged file's path, when
present. -/
def getDropPath (ext : ExternalServices) (dataTransfer : DataTransferModel) :
    Option String :=
  if dataTransfer.resources ≠ "" then
    some (ext.parseResourcesFsPath dataTransfer.resources)
  else
    match dataTransfer.files with
    | [] => none
    | f :: _ => if f.path ≠ "" then some (ext.fileFsPath f.path) else none

/-- `_handleExternalDrop` (lines 448-472): guard clauses return the empty
trace — no instance, no data transfer, no path assigned, and the
`if (!path) return` check on line 463, which in JavaScript also rejects
an empty-string fsPath computed by the URI machinery; otherwise activate
the target, prepare the path and send it, then focus. -/
def handleExternalDrop (ext : ExternalServices) (inst : Option TerminalInstance)
    (dataTransfer : Option DataTransferModel) : List Effect :=
  match inst, dataTransfer with
  | none, _ => []
  | _, none => []
  | some i, some dt =>
    match getDropPath ext dt with
    | none => []
    | some path =>
      if path = "" then []
      else
        [Effect.setActiveInstance i.instanceId,
         Effect.preparePath path i.shellLaunchConfig.executable i.title
           i.shellType i.isRemote,
         Effect.sendText i.instanceId (ext.preparePathForTerminal path) false,
         Effect.focusInstance i.instanceId]

/-- The drag payload seen by `drop`/`onDragOver`: a drag of list rows
(`ElementsDragAndDropData`) or an external drag carrying the event's
`dataTransfer` (which a `DragEvent` may lack). -/
inductive DragData where
  | elements (instanceIds : List Nat)
  | external (dataTransfer : Option DataTransferModel)
  deriving DecidableEq, Repr

def DragData.isExternal : DragData → Bool
  | elements _ => false
  | external _ => true

/-- The handler's mutable state: `_autoFocusInstance` and the pending
auto-focus timer, as its absolute deadline and target id; `none` models a
disposed/absent timer (`Disposable.None`). -/
structure DndState where
  autoFocusInstance : Option Nat
  timer : Option (Nat × Nat)
  deriving DecidableEq, Repr

def dndInit : DndState := { autoFocusInstance := none, timer := none }

/-- `onDragOver` (lines 414-436) at absolute time `now`: when the target
changed, dispose the timer and remember the new target; with no target,
stop; on an external drag over a changed target, arm the 500ms
auto-focus timer. -/
def onDragOverStep (now : Nat) (data : DragData) (targetInstance : Option Nat)
    (s : DndState) : DndState :=
  let didChangeAutoFocusInstance := s.autoFocusInstance ≠ targetInstance
  let s1 :=
    if didChangeAutoFocusInstance then
      { autoFocusInstance := targetInstance, timer := none }
    else s
  match targetInstance with
  | none => s1
  | some t =>
    if didChangeAutoFocusInstance ∧ data.isExternal then
      { s1 with timer := some (now + 500, t) }
    else s1

/-- The timer callback (lines 429-432), run when the deadline has passed
and the timeout was not disposed: activate the remembered target and
clear `_autoFocusInstance`. -/
def fireIfDue (now : Nat) (s : DndState) : DndState × List Effect :=
  match s.timer with
  | some (deadline, t) =>
    if deadline ≤ now then
      ({ autoFocusInstance := none, timer := none }, [Effect.setActiveInstance t])
    else (s, [])
  | none => (s, [])

/-- `drop` (lines 438-446): dispose the timer, clear the remembered
target, and handle external drops. -/
def drop (ext : ExternalServices) (data : DragData)
    (targetInstance : Option TerminalInstance) (_s : DndState) :
    DndState × List Effect :=
  let s1 : DndState := { autoFocusInstance := none, timer := none }
  match data with
  | DragData.elements _ => (s1, [])
  | DragData.external dt => (s1, handleExternalDrop ext targetInstance dt)

/-- One `dragover` event: its absolute time, payload and target row. -/
structure DragOverEvent where
  time : Nat
  data : DragData
  target : Option Nat
  deriving DecidableEq, Repr

/-- A run of `dragover` events, each preceded by firing a due timer (the
event loop runs the timeout callback before later events), ending at
`endTime`, when a still-pending due timer also fires.  Returns the final
state and the emitted trace. -/
def runDragOvers : List DragOverEvent → Nat → DndState → DndState × List Effect
  | [], endTime, s => fireIfDue endTime s
  | e :: rest, endTime, s =>
    let p1 := fireIfDue e.time s
    let s2 := onDragOverStep e.time e.data e.target p1.1
    let p2 := runDragOvers rest endTime s2
    (p2.1, p1.2 ++ p2.2)

/-- The run without the trailing deadline check: process each dragover,
firing a due timer first. -/
def processDragOvers : List DragOverEvent → DndState → DndState × List Effect
  | [], s => (s, [])
  | e :: rest, s =>
    let p1 := fireIfDue e.time s
    let s2 := onDragOverStep e.time e.data e.target p1.1
    let p2 := processDragOvers rest s2
    (p2.1, p1.2 ++ p2.2)

/-- Example fixtures for the witnesses. -/
def exGroup : Group := ⟨[5, 3, 9]⟩

def exInstance : TerminalInstance :=
  { instanceId := 3, title := "zsh", icon := none, color := none,
    statusList := ⟨[], none⟩, shellLaunchConfig := ⟨none, none⟩,
    shellType := none, isRemote := false }

def exGetGroup : Nat → Option Group := fun _ => some exGroup

def exRender : RenderResult :=
  { hasText := true, prefixGlyph := "├ ", hoverTitle := "zsh", hoverActions := [],
    hasActionbar := true, actionBarFilled := true, labelName := "├ $(undefined)",
    description := none, codiconColor := "", extraClasses := [] }

def ariaGetGroup : Nat → Option Group := fun _ => some ⟨[7, 3]⟩

def ariaInstance : TerminalInstance :=
  { instanceId := 3, title := "bash", icon := none, color := none,
    statusList := ⟨[], none⟩, shellLaunchConfig := ⟨none, none⟩,
    shellType := none, isRemote := false }

/-- External library functions for the drop witnesses: resource parsing
and file-path conversion are the identity, path preparation quotes. -/
def exServices : ExternalServices :=
  { parseResourcesFsPath := fun s => s
    fileFsPath := fun s => s
    preparePathForTerminal := fun s => "q:" ++ s }

def exDataTransfer : DataTransferModel := { resources := "/tmp/a.txt", files := [] }

/-! ## Theorems -/

/-- Inverting a successful `renderElement`: the row's computed fields. -/
lemma renderElement_ok (g : Nat → Option Group) (w : Option Nat)
    (inst : TerminalInstance) (grp : Group) (r : RenderResult)
    (hg : g inst.instanceId = some grp)
    (hr : renderElement g w inst = Except.ok r) :
    r.hasText = !shouldHideText w ∧
    r.hasActionbar = !shouldHideActionBar w ∧
    r.prefixGlyph = renderPrefixGlyph grp inst.instanceId := by
  unfold renderElement at hr
  rw [hg] at hr
  cases hr
  exact ⟨rfl, rfl, rfl⟩

/-- C5: the action bar of a rendered row is hidden exactly when the
container's width is at most 105 (`ActionbarMinimumWidth`), no matter
which instance is rendered. -/
theorem actionbar_hidden_iff_narrow (w : Nat) (g : Nat → Option Group)
    (inst : TerminalInstance) (r : RenderResult)
    (hr : renderElement g (some w) inst = Except.ok r) :
    r.hasActionbar = false ↔ w ≤ 105 := by
  cases hg : g inst.instanceId with
  | none => unfold renderElement at hr; rw [hg] at hr; cases hr
  | some grp =>
    have h := (renderElement_ok g (some w) inst grp r hg hr).2.1
    rw [h]
    simp [shouldHideActionBar, TerminalTabsListSizes.ActionbarMinimumWidth]

/-- Witness for C5: at width 100 the action bar is hidden. -/
theorem actionbar_hidden_iff_narrow_witness :
    (RenderResult.hasActionbar
        { hasText := true, prefixGlyph := "", hoverTitle := "t", hoverActions := [],
          hasActionbar := false, actionBarFilled := true, labelName := "$(undefined)",
          description := none, codiconColor := "", extraClasses := [] } = false)
      ↔ 100 ≤ 105 :=
  actionbar_hidden_iff_narrow 100 (fun _ => some ⟨[0]⟩)
    { instanceId := 0, title := "t", icon := none, color := none,
      statusList := ⟨[], none⟩, shellLaunchConfig := ⟨none, none⟩,
      shellType := none, isRemote := false }
    _ (by rfl)

/-- C6: the title text of a rendered row is hidden exactly when the
container's width is strictly below 63 (`MidpointViewWidth`, the midpoint
of 46 and 80), no matter which instance is rendered. -/
theorem text_hidden_iff_narrow (w : Nat) (g : Nat → Option Group)
    (inst : TerminalInstance) (r : RenderResult)
    (hr : renderElement g (some w) inst = Except.ok r) :
    r.hasText = false ↔ w < 63 := by
  cases hg : g inst.instanceId with
  | none => unfold renderElement at hr; rw [hg] at hr; cases hr
  | some grp =>
    have h := (renderElement_ok g (some w) inst grp r hg hr).1
    rw [h]
    simp [shouldHideText, TerminalTabsListSizes.MidpointViewWidth,
      TerminalTabsListSizes.NarrowViewWidth, TerminalTabsListSizes.WideViewMinimumWidth]

/-- Witness for C6: at width 62 the text is hidden. -/
theorem text_hidden_iff_narrow_witness :
    (RenderResult.hasText
        { hasText := false, prefixGlyph := "", hoverTitle := "t", hoverActions := [],
          hasActionbar := false, actionBarFilled := false, labelName := "$(undefined)",
          description := none, codiconColor := "", extraClasses := [] } = false)
      ↔ 62 < 63 :=
  text_hidden_iff_narrow 62 (fun _ => some ⟨[0]⟩)
    { instanceId := 0, title := "t", icon := none, color := none,
      statusList := ⟨[], none⟩, shellLaunchConfig := ⟨none, none⟩,
      shellType := none, isRemote := false }
    _ (by rfl)

/-- With no duplicate ids, `indexOf` picks out exactly the position
holding the id. -/
lemma indexOf_eq_iff_getElem (l : List Nat) (i : Nat) (hm : i ∈ l)
    (hnd : l.Nodup) (j : Nat) (hj : j < l.length) :
    l.indexOf i = j ↔ l[j]? = some i := by
  constructor
  · rintro rfl
    exact List.getElem?_indexOf hm
  · intro h
    have hj' : l[j] = i := by
      rw [List.getElem?_eq_getElem hj] at h
      exact Option.some.inj h
    have hidx : l.indexOf i < l.length := List.indexOf_lt_length.2 hm
    have hget : l[l.indexOf i] = i := List.getElem_indexOf hidx
    exact (hnd.getElem_inj_iff).1 (hget.trans hj'.symm)

/-- For a group with more than one member the glyph is positional: the
first member gets the top marker, the last the bottom marker, anyone
else the middle marker. -/
lemma renderPrefixGlyph_positions (grp : Group) (i : Nat)
    (hmem : i ∈ grp.terminalInstances) (hnd : grp.terminalInstances.Nodup)
    (hlen : 1 < grp.terminalInstances.length) :
    renderPrefixGlyph grp i =
      if grp.terminalInstances[0]? = some i then "┌ "
      else if grp.terminalInstances[grp.terminalInstances.length - 1]? = some i then "└ "
      else "├ " := by
  have h0 : 0 < grp.terminalInstances.length := Nat.lt_of_lt_of_le Nat.zero_lt_one hlen.le
  have hlast : grp.terminalInstances.length - 1 < grp.terminalInstances.length :=
    Nat.sub_lt h0 Nat.zero_lt_one
  have hiff0 := indexOf_eq_iff_getElem grp.terminalInstances i hmem hnd 0 h0
  have hiffL := indexOf_eq_iff_getElem grp.terminalInstances i hmem hnd
    (grp.terminalInstances.length - 1) hlast
  unfold renderPrefixGlyph
  rw [if_pos hlen]
  by_cases hc0 : grp.terminalInstances.indexOf i = 0
  · rw [if_pos hc0, if_pos (hiff0.1 hc0)]
  · rw [if_neg hc0, if_neg (fun h => hc0 (hiff0.2 h))]
    by_cases hcl : grp.terminalInstances.indexOf i = grp.terminalInstances.length - 1
    · rw [if_pos hcl, if_pos (hiffL.1 hcl)]
    · rw [if_neg hcl, if_neg (fun h => hcl (hiffL.2 h))]

/-- C4: for a rendered row whose (duplicate-free) group has more than one
member, the label prefix depends only on the instance's position — top
marker for the first member, bottom marker for the last, middle marker
otherwise; a singleton group gets the empty prefix. -/
theorem rendered_prefix_by_position (g : Nat → Option Group) (w : Option Nat)
    (inst : TerminalInstance) (grp : Group) (r : RenderResult)
    (hg : g inst.instanceId = some grp)
    (hr : renderElement g w inst = Except.ok r)
    (hmem : inst.instanceId ∈ grp.terminalInstances)
    (hnd : grp.terminalInstances.Nodup) :
    (1 < grp.terminalInstances.length →
      r.prefixGlyph =
        if grp.terminalInstances[0]? = some inst.instanceId then "┌ "
        else if grp.terminalInstances[grp.terminalInstances.length - 1]? =
            some inst.instanceId then "└ "
        else "├ ")
    ∧ (grp.terminalInstances.length = 1 → r.prefixGlyph = "") := by
  have hpre := (renderElement_ok g w inst grp r hg hr).2.2
  constructor
  · intro hlen
    rw [hpre]
    exact renderPrefixGlyph_positions grp inst.instanceId hmem hnd hlen
  · intro h1
    rw [hpre]
    unfold renderPrefixGlyph
    rw [h1]
    rfl

/-- Witness for C4: instance 3 sits in the middle of group [5, 3, 9] and
gets the middle marker. -/
theorem rendered_prefix_by_position_witness :
    RenderResult.prefixGlyph exRender =
      (if exGroup.terminalInstances[0]? = some 3 then "┌ "
       else if exGroup.terminalInstances[exGroup.terminalInstances.length - 1]? =
           some 3 then "└ "
       else "├ ") :=
  (rendered_prefix_by_position exGetGroup none exInstance exGroup exRender rfl rfl
    (by decide) (by decide)).1 (by decide)

/-- C3: rendering a row raises an error exactly when the instance's split
group cannot be resolved; with a resolved group the renderer is total,
whatever data (icon, color, statuses, tooltip, description, container) is
absent. -/
theorem renderElement_error_iff_no_group (g : Nat → Option Group)
    (w : Option Nat) (inst : TerminalInstance) :
    (∃ msg, renderElement g w inst = Except.error msg) ↔
      g inst.instanceId = none := by
  cases hg : g inst.instanceId with
  | none =>
    refine ⟨fun _ => rfl, fun _ => ?_⟩
    exact ⟨_, by unfold renderElement; rw [hg]⟩
  | some grp =>
    constructor
    · rintro ⟨msg, hmsg⟩
      unfold renderElement at hmsg
      rw [hg] at hmsg
      cases hmsg
    · intro h; cases h

/-- C8: the accessibility label is the split form — id, title, 1-based
position, group size — exactly when the instance's group resolves with
more than one member; with no group, or a singleton group, it is the
plain id-and-title form. -/
theorem getAriaLabel_cases (g : Nat → Option Group) (inst : TerminalInstance) :
    (∀ tab, g inst.instanceId = some tab → 1 < tab.terminalInstances.length →
      inst.instanceId ∈ tab.terminalInstances →
      ∃ k, tab.terminalInstances[k]? = some inst.instanceId ∧
        getAriaLabel g inst =
          splitTerminalAriaLabel inst.instanceId inst.title (k + 1)
            tab.terminalInstances.length)
    ∧ (g inst.instanceId = none →
        getAriaLabel g inst = terminalAriaLabel inst.instanceId inst.title)
    ∧ (∀ tab, g inst.instanceId = some tab → tab.terminalInstances.length ≤ 1 →
        getAriaLabel g inst = terminalAriaLabel inst.instanceId inst.title) := by
  refine ⟨fun tab hg hlen hmem => ?_, fun hg => ?_, fun tab hg hlen => ?_⟩
  · refine ⟨tab.terminalInstances.indexOf inst.instanceId,
      List.getElem?_indexOf hmem, ?_⟩
    unfold getAriaLabel
    rw [hg]
    exact if_pos hlen
  · unfold getAriaLabel
    rw [hg]
  · unfold getAriaLabel
    rw [hg]
    exact if_neg (Nat.not_lt.mpr hlen)

/-- Witness for C8: instance 3 in the two-way group [7, 3] is announced
as split 2 of 2. -/
theorem getAriaLabel_cases_witness :
    ∃ k, ([7, 3] : List Nat)[k]? = some 3 ∧
      getAriaLabel ariaGetGroup ariaInstance = splitTerminalAriaLabel 3 "bash" (k + 1) 2 :=
  (getAriaLabel_cases ariaGetGroup ariaInstance).1 ⟨[7, 3]⟩ rfl (by decide) (by decide)

/-- C7 fails as the claim states it: in `singleClick` focus mode, with at
most one row selected, an Alt+left-click on row 1 splits it and does not
focus it. -/
theorem singleClick_focus_counterexample :
    onMouseClick "singleClick" true (some 1) 0 = [ClickEffect.splitInstance 1] ∧
    ∀ b, ClickEffect.focus 1 b ∉ onMouseClick "singleClick" true (some 1) 0 := by
  decide

/-- C7 amended: when Alt is not held, a left click on a row in
`singleClick` focus mode focuses the clicked instance exactly when at
most one row is selected. -/
theorem singleClick_focus_iff (e selectionLength : Nat) :
    onMouseClick "singleClick" false (some e) selectionLength =
      (if selectionLength ≤ 1 then [ClickEffect.focus e true] else []) ∧
    (ClickEffect.focus e true ∈ onMouseClick "singleClick" false (some e) selectionLength
      ↔ selectionLength ≤ 1) := by
  constructor
  · rfl
  · by_cases h : selectionLength ≤ 1 <;> simp [onMouseClick, h]

/-- C10: an Alt+left-click on a row splits the clicked instance whatever
the focus mode and however many rows are selected, and no click with Alt
held ever focuses an instance. -/
theorem altClick_splits (focusMode : String) (e selectionLength : Nat) :
    onMouseClick focusMode true (some e) selectionLength = [ClickEffect.splitInstance e]
    ∧ ∀ (element : Option Nat) (i : Nat) (b : Bool),
        ClickEffect.focus i b ∉ onMouseClick focusMode true element selectionLength := by
  constructor
  · rfl
  · intro element i b
    cases element with
    | none =>
      by_cases hf : focusMode = "singleClick" <;>
        by_cases hs : selectionLength ≤ 1 <;>
        simp [onMouseClick, hf, hs]
    | some e' => simp [onMouseClick]

/-- Witness for C10: Alt+click on row 4 in `doubleClick` mode with five
rows selected splits row 4 and focuses nothing. -/
theorem altClick_splits_witness :
    onMouseClick "doubleClick" true (some 4) 5 = [ClickEffect.splitInstance 4]
    ∧ ClickEffect.focus 4 true ∉ onMouseClick "doubleClick" true (some 4) 5 :=
  ⟨(altClick_splits "doubleClick" 4 5).1,
   (altClick_splits "doubleClick" 4 5).2 (some 4) 4 true⟩

/-- C1: an external drop on a row whose payload yields a resolvable path
— one the `if (!path) return` guard on line 463 lets through, so a
non-empty one — emits exactly this trace: activate the target row,
prepare the path (with the instance's shell data), send the prepared
text once, focus. -/
theorem drop_external_path_trace (ext : ExternalServices) (i : TerminalInstance)
    (dt : DataTransferModel) (s : DndState) (path : String)
    (hpath : getDropPath ext dt = some path) (hne : path ≠ "") :
    (drop ext (DragData.external (some dt)) (some i) s).2 =
      [Effect.setActiveInstance i.instanceId,
       Effect.preparePath path i.shellLaunchConfig.executable i.title
         i.shellType i.isRemote,
       Effect.sendText i.instanceId (ext.preparePathForTerminal path) false,
       Effect.focusInstance i.instanceId] := by
  simp [drop, handleExternalDrop, hpath, hne]

/-- Witness for C1: dropping a resource list on instance 3 activates it,
prepares the path and sends the prepared text once. -/
theorem drop_external_path_trace_witness :
    (drop exServices (DragData.external (some exDataTransfer)) (some exInstance)
        dndInit).2 =
      [Effect.setActiveInstance 3,
       Effect.preparePath "/tmp/a.txt" none "zsh" none false,
       Effect.sendText 3 "q:/tmp/a.txt" false,
       Effect.focusInstance 3] :=
  drop_external_path_trace exServices exInstance exDataTransfer dndInit "/tmp/a.txt" rfl
    (by decide)

/-- C9: an external drop with no target row, no data transfer, or a
payload yielding no path emits no effect at all. -/
theorem drop_external_no_path_no_effects (ext : ExternalServices)
    (inst : Option TerminalInstance) (dt : Option DataTransferModel) (s : DndState)
    (h : inst = none ∨ dt = none ∨ ∃ d, dt = some d ∧ getDropPath ext d = none) :
    (drop ext (DragData.external dt) inst s).2 = [] := by
  rcases h with h | h | ⟨d, hd, hpath⟩
  · subst h
    cases dt <;> simp [drop, handleExternalDrop]
  · subst h
    cases inst <;> simp [drop, handleExternalDrop]
  · subst hd
    cases inst <;> simp [drop, handleExternalDrop, hpath]

/-- Witness for C9: a drop on instance 3 whose payload has no resources
and no files leaves the terminal state untouched. -/
theorem drop_external_no_path_no_effects_witness :
    (drop exServices (DragData.external (some ⟨"", []⟩)) (some exInstance) dndInit).2 = [] :=
  drop_external_no_path_no_effects exServices (some exInstance) (some ⟨"", []⟩) dndInit
    (Or.inr (Or.inr ⟨⟨"", []⟩, rfl, rfl⟩))

/-! ### The auto-focus timer (C2) -/

lemma runDragOvers_eq_process (es : List DragOverEvent) (endTime : Nat) (s : DndState) :
    runDragOvers es endTime s =
      ((fireIfDue endTime (processDragOvers es s).1).1,
       (processDragOvers es s).2 ++ (fireIfDue endTime (processDragOvers es s).1).2) := by
  induction es generalizing s with
  | nil => simp [runDragOvers, processDragOvers]
  | cons e rest ih => simp [runDragOvers, processDragOvers, ih, List.append_assoc]

lemma processDragOvers_append (xs ys : List DragOverEvent) (s : DndState) :
    processDragOvers (xs ++ ys) s =
      ((processDragOvers ys (processDragOvers xs s).1).1,
       (processDragOvers xs s).2 ++ (processDragOvers ys (processDragOvers xs s).1).2) := by
  induction xs generalizing s with
  | nil => simp [processDragOvers]
  | cons e rest ih => simp [processDragOvers, ih, List.append_assoc]

/-- Dragovers that stay on the already-remembered row before the armed
deadline change nothing: the timer is neither disposed nor re-armed. -/
lemma processDragOvers_hold (r deadline : Nat) (mid : List DragOverEvent)
    (hmid : ∀ e ∈ mid, e.target = some r ∧ e.time < deadline) :
    processDragOvers mid ⟨some r, some (deadline, r)⟩ =
      (⟨some r, some (deadline, r)⟩, []) := by
  induction mid with
  | nil => rfl
  | cons e rest ih =>
    obtain ⟨ht, htime⟩ := hmid e (List.mem_cons_self e rest)
    have h1 : fireIfDue e.time ⟨some r, some (deadline, r)⟩ =
        (⟨some r, some (deadline, r)⟩, []) := by
      simp [fireIfDue, Nat.not_le.mpr htime]
    have h2 : onDragOverStep e.time e.data e.target ⟨some r, some (deadline, r)⟩ =
        ⟨some r, some (deadline, r)⟩ := by
      rw [ht]
      simp [onDragOverStep]
    show (let p1 := fireIfDue e.time ⟨some r, some (deadline, r)⟩;
          let s2 := onDragOverStep e.time e.data e.target p1.1;
          let p2 := processDragOvers rest s2;
          ((p2.1, p1.2 ++ p2.2) : DndState × List Effect)) = _
    rw [h1]
    simp only
    rw [h2, ih (fun e' he' => hmid e' (List.mem_cons_of_mem e he'))]
    rfl

/-- Unfolding `onDragOverStep` at an empty target. -/
lemma onDragOverStep_none (now : Nat) (data : DragData) (s : DndState) :
    onDragOverStep now data none s =
      if s.autoFocusInstance ≠ none then ⟨none, none⟩ else s := rfl

/-- Unfolding `onDragOverStep` at a present target. -/
lemma onDragOverStep_some (now : Nat) (data : DragData) (v : Nat) (s : DndState) :
    onDragOverStep now data (some v) s =
      if (s.autoFocusInstance ≠ some v) ∧ data.isExternal = true then
        ⟨(if s.autoFocusInstance ≠ some v then
            (⟨some v, none⟩ : DndState) else s).autoFocusInstance,
         some (now + 500, v)⟩
      else if s.autoFocusInstance ≠ some v then ⟨some v, none⟩ else s := rfl

/-- A new pending timer was either already pending (with the target
unchanged) or has just been armed for the event's own target. -/
lemma onDragOverStep_timer (now : Nat) (data : DragData) (tgt : Option Nat)
    (s : DndState) (d t : Nat)
    (h : (onDragOverStep now data tgt s).timer = some (d, t)) :
    (s.autoFocusInstance = tgt ∧ s.timer = some (d, t)) ∨ tgt = some t := by
  cases tgt with
  | none =>
    rw [onDragOverStep_none] at h
    by_cases hc : s.autoFocusInstance = (none : Option Nat)
    · rw [if_neg (fun hn => hn hc)] at h
      exact Or.inl ⟨hc, h⟩
    · rw [if_pos hc] at h
      exact absurd h (by simp)
  | some v =>
    rw [onDragOverStep_some] at h
    by_cases hext : (s.autoFocusInstance ≠ some v) ∧ data.isExternal = true
    · rw [if_pos hext] at h
      have h' : (now + 500, v) = (d, t) := Option.some.inj h
      exact Or.inr (congrArg some (congrArg Prod.snd h'))
    · rw [if_neg hext] at h
      by_cases hc : s.autoFocusInstance = some v
      · rw [if_neg (fun hn => hn hc)] at h
        exact Or.inl ⟨hc, h⟩
      · rw [if_pos hc] at h
        exact absurd h (by simp)

/-- Firing the timer emits at most the pending target's activation and
leaves no pending timer behind. -/
lemma fireIfDue_cases (now : Nat) (s : DndState) :
    fireIfDue now s = (s, []) ∨
    ∃ d t, s.timer = some (d, t) ∧
      fireIfDue now s = (⟨none, none⟩, [Effect.setActiveInstance t]) := by
  unfold fireIfDue
  cases h : s.timer with
  | none => exact Or.inl rfl
  | some dt =>
    obtain ⟨d, t⟩ := dt
    by_cases hd : d ≤ now
    · exact Or.inr ⟨d, t, rfl, if_pos hd⟩
    · exact Or.inl (if_neg hd)

/-- Invariant: while no pending timer targets row `r` and no dragover
hovers row `r`, the run never activates `r` and never leaves a timer
aimed at `r`. -/
lemma processDragOvers_no_setActive (r : Nat) (es : List DragOverEvent) :
    ∀ s : DndState,
      (∀ d t, s.timer = some (d, t) → t ≠ r) →
      (∀ e ∈ es, e.target ≠ some r) →
      Effect.setActiveInstance r ∉ (processDragOvers es s).2 ∧
        (∀ d t, (processDragOvers es s).1.timer = some (d, t) → t ≠ r) := by
  induction es with
  | nil =>
    intro s hs _
    exact ⟨by simp [processDragOvers], by simpa [processDragOvers] using hs⟩
  | cons e rest ih =>
    intro s hs hes
    have het : e.target ≠ some r := hes e (List.mem_cons_self e rest)
    have hrest : ∀ e' ∈ rest, e'.target ≠ some r :=
      fun e' he' => hes e' (List.mem_cons_of_mem e he')
    have hfire : Effect.setActiveInstance r ∉ (fireIfDue e.time s).2 ∧
        (∀ d t, (fireIfDue e.time s).1.timer = some (d, t) → t ≠ r) := by
      rcases fireIfDue_cases e.time s with hf | ⟨d, t, hst, hf⟩
      · rw [hf]
        exact ⟨by simp, hs⟩
      · rw [hf]
        refine ⟨?_, by simp⟩
        have : t ≠ r := hs d t hst
        simp [this.symm]
    have hstep : ∀ d t,
        (onDragOverStep e.time e.data e.target (fireIfDue e.time s).1).timer =
          some (d, t) → t ≠ r := by
      intro d t hdt
      rcases onDragOverStep_timer e.time e.data e.target (fireIfDue e.time s).1 d t hdt
        with ⟨_, hold⟩ | htgt
      · exact hfire.2 d t hold
      · intro hrt
        rw [hrt] at htgt
        exact het htgt
    have hrec := ih (onDragOverStep e.time e.data e.target (fireIfDue e.time s).1)
      hstep hrest
    refine ⟨?_, hrec.2⟩
    show Effect.setActiveInstance r ∉
      (fireIfDue e.time s).2 ++
        (processDragOvers rest
          (onDragOverStep e.time e.data e.target (fireIfDue e.time s).1)).2
    rw [List.mem_append]
    rintro (h | h)
    · exact hfire.1 h
    · exact hrec.1 h

/-- The state armed by an external dragover entering row `r` at `t0`. -/
lemma onDragOverStep_arm (t0 r : Nat) (dt : Option DataTransferModel) :
    onDragOverStep t0 (DragData.external dt) (some r) dndInit =
      ⟨some r, some (t0 + 500, r)⟩ := by
  simp [onDragOverStep, dndInit, DragData.isExternal]

/-- C2 (amended): after an external dragover enters row `r` at time
`t0`, with every further dragover staying on `r` and happening before
the 500ms deadline:
(a) if the drag is held until the deadline, row `r` is activated exactly
once (a dragover on the row after the timer has fired would re-arm it —
see the counterexample — hence the deadline bound on the held events);
(b) if instead the drag moves to a different row `r2` before the
deadline and never returns to `r`, row `r` is never activated. -/
theorem dragOver_autofocus (r t0 : Nat) (dt : Option DataTransferModel)
    (mid : List DragOverEvent)
    (hmid : ∀ e ∈ mid, e.target = some r ∧ e.time < t0 + 500) :
    (∀ endTime, t0 + 500 ≤ endTime →
      (runDragOvers (⟨t0, DragData.external dt, some r⟩ :: mid) endTime dndInit).2 =
        [Effect.setActiveInstance r])
    ∧ (∀ (e2 : DragOverEvent) (r2 : Nat) (rest : List DragOverEvent) (endTime : Nat),
        e2.target = some r2 → e2.time < t0 + 500 → r2 ≠ r →
        (∀ e ∈ rest, e.target ≠ some r) →
        Effect.setActiveInstance r ∉
          (runDragOvers ((⟨t0, DragData.external dt, some r⟩ :: mid) ++ e2 :: rest)
              endTime dndInit).2) := by
  have hentry : processDragOvers [⟨t0, DragData.external dt, some r⟩] dndInit =
      (⟨some r, some (t0 + 500, r)⟩, []) := by
    show (let p1 := fireIfDue t0 dndInit;
          let s2 := onDragOverStep t0 (DragData.external dt) (some r) p1.1;
          let p2 := processDragOvers [] s2;
          ((p2.1, p1.2 ++ p2.2) : DndState × List Effect)) = _
    have h1 : fireIfDue t0 dndInit = (dndInit, []) := rfl
    rw [h1]
    simp only
    rw [onDragOverStep_arm t0 r dt]
    rfl
  have hheld : processDragOvers (⟨t0, DragData.external dt, some r⟩ :: mid) dndInit =
      (⟨some r, some (t0 + 500, r)⟩, []) := by
    have := processDragOvers_append [⟨t0, DragData.external dt, some r⟩] mid dndInit
    simp only [List.singleton_append] at this
    rw [this, hentry, processDragOvers_hold r (t0 + 500) mid hmid]
    rfl
  constructor
  · intro endTime hend
    rw [runDragOvers_eq_process, hheld]
    simp [fireIfDue, hend]
  · intro e2 r2 rest endTime ht2 htime2 hne hrest
    rw [runDragOvers_eq_process]
    have happ := processDragOvers_append (⟨t0, DragData.external dt, some r⟩ :: mid)
      (e2 :: rest) dndInit
    rw [happ, hheld]
    have hf2 : fireIfDue e2.time ⟨some r, some (t0 + 500, r)⟩ =
        (⟨some r, some (t0 + 500, r)⟩, []) := by
      simp [fireIfDue, Nat.not_le.mpr htime2]
    have hstep2 : ∀ d t,
        (onDragOverStep e2.time e2.data e2.target ⟨some r, some (t0 + 500, r)⟩).timer =
          some (d, t) → t ≠ r := by
      intro d t hdt
      rcases onDragOverStep_timer e2.time e2.data e2.target _ d t hdt with ⟨hfoc, _⟩ | htgt
      · rw [ht2] at hfoc
        exact absurd (Option.some.inj hfoc) hne.symm
      · rw [ht2] at htgt
        intro hrt
        rw [hrt] at htgt
        exact hne (Option.some.inj htgt)
    have hinv := processDragOvers_no_setActive r rest
      (onDragOverStep e2.time e2.data e2.target ⟨some r, some (t0 + 500, r)⟩)
      hstep2 hrest
    have hfinal : Effect.setActiveInstance r ∉
        (fireIfDue endTime
          (processDragOvers rest
            (onDragOverStep e2.time e2.data e2.target ⟨some r, some (t0 + 500, r)⟩)).1).2 := by
      rcases fireIfDue_cases endTime
        (processDragOvers rest
          (onDragOverStep e2.time e2.data e2.target ⟨some r, some (t0 + 500, r)⟩)).1
        with hf | ⟨d, t, hst, hf⟩
      · rw [hf]
        simp
      · rw [hf]
        have : t ≠ r := hinv.2 d t hst
        simp [this.symm]
    have hcons : processDragOvers (e2 :: rest) ⟨some r, some (t0 + 500, r)⟩ =
        processDragOvers rest
          (onDragOverStep e2.time e2.data e2.target ⟨some r, some (t0 + 500, r)⟩) := by
      show (let p1 := fireIfDue e2.time ⟨some r, some (t0 + 500, r)⟩;
            let s2 := onDragOverStep e2.time e2.data e2.target p1.1;
            let p2 := processDragOvers rest s2;
            ((p2.1, p1.2 ++ p2.2) : DndState × List Effect)) = _
      rw [hf2]
      rfl
    rw [hcons]
    simp only [List.nil_append, List.append_nil, List.mem_append]
    rintro (h | h)
    · exact hinv.1 h
    · exact hfinal h

/-- C2 fails as the claim states it: two external dragovers over the same
row 1, at times 0 and 600, with the drag held to time 1200, activate row
1 twice — the second dragover re-arms the already-fired timer. -/
theorem dragOver_autofocus_counterexample :
    (runDragOvers
        [⟨0, DragData.external none, some 1⟩, ⟨600, DragData.external none, some 1⟩]
        1200 dndInit).2 =
      [Effect.setActiveInstance 1, Effect.setActiveInstance 1] := by
  decide

/-- Witness for C2 (amended): dragovers over row 1 at times 0 and 100
held to time 500 activate row 1 exactly once; moving to row 2 at time
200 instead means row 1 is never activated. -/
theorem dragOver_autofocus_witness :
    (runDragOvers
        [⟨0, DragData.external none, some 1⟩, ⟨100, DragData.external none, some 1⟩]
        500 dndInit).2 = [Effect.setActiveInstance 1]
    ∧ Effect.setActiveInstance 1 ∉
        (runDragOvers
          [⟨0, DragData.external none, some 1⟩, ⟨100, DragData.external none, some 1⟩,
           ⟨200, DragData.external none, some 2⟩]
          2000 dndInit).2 :=
  ⟨(dragOver_autofocus 1 0 none [⟨100, DragData.external none, some 1⟩]
      (by decide)).1 500 (by decide),
   (dragOver_autofocus 1 0 none [⟨100, DragData.external none, some 1⟩]
      (by decide)).2 ⟨200, DragData.external none, some 2⟩ 2 [] 2000 rfl
      (by decide) (by decide) (by simp)⟩

end TerminalTabs
